import Mathlib

/-!
Verification of the persistence abstraction and generation workflow of the
pad-2.0 repository against its natural-language specification.

The Python sources are shallowly embedded: dictionaries become association
lists, JSON values become the `Value` type below (every document this system
stores has the shape id/type strings plus a content list of records, spec
section 3), fallible operations return `Except` or `Option`, and file-system
or database state is passed explicitly.
-/

/-- A scalar JSON value as it occurs inside a stored record. -/
inductive Scalar where
  | null : Scalar
  | str : String → Scalar
  | num : Nat → Scalar
deriving DecidableEq, Repr

/-- A record: a Python dict of scalars, as stored in a document content list. -/
abbrev Record := List (String × Scalar)

/-- A JSON value occurring as a field of a stored document: null, a string,
a number, or a list of records (the shape of `content` and of a template
`objects` field). -/
inductive Value where
  | null : Value
  | str : String → Value
  | num : Nat → Value
  | records : List Record → Value
deriving DecidableEq, Repr

/-- A document / Python dict: association list from field name to value. -/
abbrev Doc := List (String × Value)

/-- Python `d.get(k)`: the value of the first binding of `k`, `None` when the
key is absent. -/
def pyGet : Doc → String → Value
  | [], _ => Value.null
  | (k, v) :: rest, key => if k = key then v else pyGet rest key

/-- Python truthiness of a value: `None`, empty string, zero and the empty
list are falsy. -/
def pyFalsy : Value → Bool
  | Value.null => true
  | Value.str s => s == ""
  | Value.num n => n == 0
  | Value.records rs => rs.isEmpty

/-- Python `str(identifier)` as used to build the file name in
`JSONRepository.save`; identifiers in this system are the artifact-type
strings. -/
def pyStrOf : Value → String
  | Value.null => "None"
  | Value.str s => s
  | Value.num n => toString n
  | Value.records _ => "[records]"

/-- The content of one file in the repository directory: either a valid JSON
document, or a truncated/partial file left behind by a write that failed
after `open(path, w)` had already truncated the target. -/
inductive FileContent where
  | valid : Doc → FileContent
  | truncated : FileContent
deriving DecidableEq, Repr

/-- The state of a `JSONRepository` directory: file stem (the identifier;
every file carries the `.json` suffix) mapped to its content. -/
abbrev Store := List (String × FileContent)

/-- Writing the file `key.json`: file names are unique, so the previous file
with that name, if any, is replaced. -/
def storeSet (s : Store) (key : String) (c : FileContent) : Store :=
  (key, c) :: s.filter (fun p => p.1 ≠ key)

/-- Whether the file `key.json` exists, and its content. -/
def lookupStore (s : Store) (key : String) : Option FileContent :=
  (s.find? (fun p => p.1 = key)).map (fun p => p.2)

/-- Outcome of the physical write attempted by `JSONRepository.save`
(json_repository.py lines 37-44): success; `open` itself fails (an `IOError`,
target untouched); or `json.dump` fails after `open(path, w)` truncated the
target (a `TypeError` mid-write, leaving a truncated file). -/
inductive WriteOutcome where
  | success : WriteOutcome
  | openFail : WriteOutcome
  | dumpFail : WriteOutcome
deriving DecidableEq, Repr

/-- A raised Python exception of the repository layer. -/
inductive PyErr where
  | valueError : String → PyErr
deriving DecidableEq, Repr

/-- `JSONRepository.save` (json_repository.py lines 23-44): reads
`data.get(id)`; raises `ValueError` when it is `None`; otherwise writes the
whole document to `identifier.json`. An `IOError`/`TypeError` during the
write is caught, printed, and `None` is returned; a dump failure leaves a
truncated file because the target was opened with mode `w`. -/
def JSONRepository.save (s : Store) (data : Doc) (w : WriteOutcome) :
    Except PyErr (Store × Option String) :=
  let identifier := pyGet data "id"
  if identifier = Value.null then
    Except.error (PyErr.valueError "Data must include an id field")
  else
    match w with
    | WriteOutcome.success =>
        Except.ok (storeSet s (pyStrOf identifier) (FileContent.valid data),
                   some (pyStrOf identifier))
    | WriteOutcome.openFail => Except.ok (s, none)
    | WriteOutcome.dumpFail =>
        Except.ok (storeSet s (pyStrOf identifier) FileContent.truncated, none)

/-- `JSONRepository.load` (json_repository.py lines 46-66): `None` when the
file does not exist; the parsed document when it does; a caught
`JSONDecodeError` (e.g. a truncated file) also yields `None`. Every
exception path is caught, so the embedding is total. -/
def JSONRepository.load (s : Store) (identifier : String) : Option Doc :=
  match lookupStore s identifier with
  | none => none
  | some (FileContent.valid d) => some d
  | some FileContent.truncated => none

/-- `JSONRepository.get_all` (json_repository.py lines 89-108): reads every
`.json` file in the directory inside one try block; if any file fails to
parse the whole call returns the empty list. -/
def JSONRepository.get_all (s : Store) : List Doc :=
  if s.any (fun p => p.2 = FileContent.truncated) then []
  else s.filterMap (fun p =>
    match p.2 with
    | FileContent.valid d => some d
    | FileContent.truncated => none)

/-- `JSONRepository.find_by` (json_repository.py lines 110-129): keeps the
documents of `get_all` for which every criterion field compares equal under
Python `==` to the document field read with `item.get(k)`. -/
def JSONRepository.find_by (s : Store) (criteria : List (String × Value)) :
    List Doc :=
  (JSONRepository.get_all s).filter
    (fun item => criteria.all (fun kv => pyGet item kv.1 == kv.2))

/-- The state of the SQLite database used by `SQLRepository`: table name
mapped to its list of rows, a row being the column-to-value mapping inserted
by `save`. -/
abbrev SQLDatabase := List (String × List Doc)

/-- The rows of a table, `none` when the table does not exist. -/
def tableOf (db : SQLDatabase) (t : String) : Option (List Doc) :=
  (db.find? (fun p => p.1 = t)).map (fun p => p.2)

/-- Replace the rows of table `t`. -/
def tableSet (db : SQLDatabase) (t : String) (rows : List Doc) : SQLDatabase :=
  (t, rows) :: db.filter (fun p => p.1 ≠ t)

/-- `SQLRepository.save` (sql_repository.py lines 23-47): builds
`INSERT INTO table (columns) VALUES (...)` and executes it — a plain insert
that appends one row, never an overwrite of an existing row. A missing table
or any other `sqlite3.Error` (`ok = false`) is caught: the transaction is
rolled back, the error printed, and `None` returned with the database
unchanged. On success it returns `cursor.lastrowid`, modelled as the new row
count of the table. -/
def SQLRepository.save (db : SQLDatabase) (table : String) (values : Doc)
    (ok : Bool) : SQLDatabase × Option Nat :=
  match tableOf db table with
  | none => (db, none)
  | some rows =>
      if ok then (tableSet db table (rows ++ [values]), some (rows.length + 1))
      else (db, none)

/-- `SQLRepository.load` (sql_repository.py lines 49-72): executes
`SELECT * FROM table WHERE key = ?` and returns `fetchone()` — the first
matching row in insertion order, or `None`. -/
def SQLRepository.load (db : SQLDatabase) (table key : String) (v : Value) :
    Option Doc :=
  match tableOf db table with
  | none => none
  | some rows => rows.find? (fun r => pyGet r key == v)

/-- Modelled from the spec: `domain/value_objects/artifact_type.py` is not
under src. Spec section 3 defines ArtifactType as a closed enumeration
(QUESTIONNAIRE, DOCUMENTATION, ...) whose string value is the canonical
storage key; the sources use `ArtifactType.QUESTIONNAIRE.value` and construct
`ArtifactType("Documentation")`. -/
inductive ArtifactType where
  | QUESTIONNAIRE : ArtifactType
  | DOCUMENTATION : ArtifactType
deriving DecidableEq, Repr

/-- The string value of an artifact type, used as the storage key. -/
def ArtifactType.value : ArtifactType → String
  | ArtifactType.QUESTIONNAIRE => "Questionnaire"
  | ArtifactType.DOCUMENTATION => "Documentation"

/-- `Project.get_content` (Project.py lines 41-52): loads the document keyed
by the artifact-type value from the project content store and returns
`result.get(content) if result else None`. `Value.null` is the absent
indicator (Python `None`). -/
def Project.get_content (store : Store) (ty : ArtifactType) : Value :=
  match JSONRepository.load store (ArtifactType.value ty) with
  | none => Value.null
  | some d => if d.isEmpty then Value.null else pyGet d "content"

/-- The `Artifact` entity (Artifact.py): a transient view object carrying a
fresh uuid `id` and the owning `project_id`. -/
structure Artifact where
  id : String
  project_id : String
deriving DecidableEq, Repr

/-- `Artifact.get_prompts` (Artifact.py lines 77-89): queries the global
prompt store with the criteria dict built from the artifact uuid and the
project id. -/
def Artifact.get_prompts (a : Artifact) (prompt_store : Store) : List Doc :=
  JSONRepository.find_by prompt_store
    [("artifact_id", Value.str a.id), ("project_id", Value.str a.project_id)]

/-- The reading of `get_prompts` stated by the spec and claim C7: query the
prompt store by the artifact type alone. -/
def get_prompts_claimed (prompt_store : Store) (ty : String) : List Doc :=
  JSONRepository.find_by prompt_store [("type", Value.str ty)]

/-- Python `del d[k]` on a dict copy, as applied to `template_dict` in
`create_prompt`; the `objects` attribute always exists on the PromptTemplate
dataclass, so the `KeyError` path cannot occur. -/
def delKey (d : Doc) (k : String) : Doc :=
  d.filter (fun p => p.1 ≠ k)

/-- A `Prompt` value object (spec section 3): the template dict minus its
`objects` field, paired with a single context record. -/
structure Prompt where
  template : Doc
  context : Record
deriving DecidableEq, Repr

/-- Python `template.objects or []` as evaluated in `Artifact._get_context`
(Artifact.py lines 49-61): `None` and the empty list both give `[]`. -/
def pyOrEmptyRecords : Value → List Record
  | Value.records rs => rs
  | _ => []

/-- `Artifact._get_context` (Artifact.py lines 49-61): the contexts used by
`create_prompt` are drawn from the template own `objects` field. The
template is embedded as its `__dict__`. -/
def Artifact.getContextOf (template : Doc) : List Record :=
  pyOrEmptyRecords (pyGet template "objects")

/-- `Artifact.create_prompt` (Artifact.py lines 23-47): takes only the
template; copies its `__dict__`, deletes the `objects` field, and builds one
`Prompt` from that stripped dict for each record of `_get_context` (that is,
of `template.objects`). -/
def Artifact.create_prompt (template : Doc) : List Prompt :=
  let contexts := Artifact.getContextOf template
  let template_dict := delKey template "objects"
  contexts.map (fun c => { template := template_dict, context := c })

/-- The reading of `create_prompt` stated by claim C6: a two-argument
function producing one prompt per record of a separate `contexts` list. -/
def create_prompt_claimed (template : Doc) (contexts : List Record) :
    List Prompt :=
  contexts.map (fun c => { template := delKey template "objects", context := c })

/-- A failure of `ArtifactGenerationService.generate_artifact`
(ArtifactGenerationService.py): the `TypeError` Python raises when a call
does not bind a required positional parameter — notably the
`Artifact(type=self.artifact_type)` construction at line 35, which omits the
`project_id` required by `Artifact.__init__`; the `ValueError` raised at
line 52 when no context is found; the `IndexError` raised by `templates[0]`
at line 55 when the template list is empty; or an exception propagated from
the external service request at line 59. -/
inductive GenError where
  | typeError : GenError
  | noContext : GenError
  | indexError : GenError
  | requestFailed : GenError
deriving DecidableEq, Repr

/-- The collaborators of one `generate_artifact` run: the result of
`artifact.get_prompts()` at line 38, the result of
`project.get_content(artifact_type)` at line 44, the prompt rendering
collaborator invoked as `artifact.create_prompt(templates[0], context)` at
line 55 (an abstract parameter here: the two-argument call does not match
the one-argument `Artifact.create_prompt` above), and the external service
`request` at line 59, which may raise. -/
structure GenEnv where
  templates : List Doc
  stored_content : Value
  render : Doc → Value → List Prompt
  llm : List Prompt → Except GenError Value

/-- Lines 44-49 of ArtifactGenerationService.py: the stored content, replaced
by the one-element list holding the additional context when the stored
content is falsy and the additional context dict is non-empty. -/
def resolve_context (stored : Value) (add : Record) : Value :=
  if pyFalsy stored && !add.isEmpty then Value.records [add] else stored

/-- The continuation of `ArtifactGenerationService.generate_artifact` after
the `Artifact` construction, i.e. lines 36-64: the constructor default
`additional_context or {}` is applied to the optional argument; context is
resolved from the stored content with the additional context as fallback; a
falsy resolved context raises `ValueError` at line 52 before `templates[0]`
is evaluated at line 55; the rendered prompts go to the external service,
whose exceptions propagate; the stored content is then overwritten and the
only normal return is `True` at line 64. In the source these lines never
execute, because the construction at line 35 raises `TypeError` first — see
`ArtifactGenerationService.generate_artifact_run` below for the whole call. -/
def ArtifactGenerationService.generate_artifact (env : GenEnv)
    (additional_context : Option Record) : Except GenError Bool :=
  let add : Record := additional_context.getD []
  let context := resolve_context env.stored_content add
  if pyFalsy context then Except.error GenError.noContext
  else
    match env.templates with
    | [] => Except.error GenError.indexError
    | t :: _ =>
        match env.llm (env.render t context) with
        | Except.error e => Except.error e
        | Except.ok _ => Except.ok true

/-- `Artifact.__init__` (Artifact.py lines 17-21): `project_id` is a
required positional parameter, so Python raises `TypeError` when a call
leaves it unbound; otherwise the artifact gets a fresh `uuid.uuid4()` id —
a parameter of the embedding — and the given project id. The `type` and
`content_store` attributes it also assigns are not read by any modelled
operation. -/
def Artifact.init (uuid : String) (project_id : Option String) :
    Except GenError Artifact :=
  match project_id with
  | none => Except.error GenError.typeError
  | some pid => Except.ok { id := uuid, project_id := pid }

/-- A whole call of `ArtifactGenerationService.generate_artifact`
(lines 27-64): line 35 executes `Artifact(type=self.artifact_type)`,
passing no `project_id`, so `Artifact.init` is entered with `none` and
every call raises `TypeError` there; lines 36-64, embedded above as
`ArtifactGenerationService.generate_artifact`, would only run had the
construction succeeded. -/
def ArtifactGenerationService.generate_artifact_run (uuid : String)
    (env : GenEnv) (additional_context : Option Record) :
    Except GenError Bool :=
  match Artifact.init uuid none with
  | Except.error e => Except.error e
  | Except.ok _artifact =>
      ArtifactGenerationService.generate_artifact env additional_context

/-- Concrete document used in the C1 examples: first save of the
Documentation slot. -/
def docC1a : Doc :=
  [("id", Value.str "Documentation"), ("type", Value.str "Documentation"),
   ("content", Value.records [[("text", Scalar.str "first")]])]

/-- Concrete document used in the C1 examples: second save with the same id. -/
def docC1b : Doc :=
  [("id", Value.str "Documentation"), ("type", Value.str "Documentation"),
   ("content", Value.records [[("text", Scalar.str "second")]])]

/-- Pre-save document for the C3 write-failure scenario. -/
def docC3prev : Doc :=
  [("id", Value.str "Documentation"), ("type", Value.str "Documentation"),
   ("content", Value.records [[("text", Scalar.str "old")]])]

/-- Document whose save fails mid-write in the C3 scenario. -/
def docC3next : Doc :=
  [("id", Value.str "Documentation"), ("type", Value.str "Documentation"),
   ("content", Value.records [[("text", Scalar.str "new")]])]

/-- File store holding the pre-save Documentation document. -/
def storeC3 : Store := [("Documentation", FileContent.valid docC3prev)]

/-- Valid document with an id, used for the C5 write-failure example. -/
def docC5 : Doc :=
  [("id", Value.str "Documentation"), ("type", Value.str "Documentation"),
   ("content", Value.records [])]

/-- Prompt-template document carrying a matching type field but no
artifact_id/project_id fields, as the spec says prompt templates are keyed. -/
def tplC7 : Doc :=
  [("id", Value.str "tpl-1"), ("type", Value.str "Documentation"),
   ("objects", Value.records [])]

/-- Prompt store holding exactly the template above. -/
def storeC7 : Store := [("tpl-1", FileContent.valid tplC7)]

/-- A transient artifact with a fresh uuid-like id, as built per request. -/
def artifactC7 : Artifact := { id := "3f2a-uuid", project_id := "proj-1" }

/-- Prompt-template document tagged with artifact and project ids, matching
what `Artifact.get_prompts` actually filters on. -/
def tplC7match : Doc :=
  [("id", Value.str "tpl-2"), ("artifact_id", Value.str "3f2a-uuid"),
   ("project_id", Value.str "proj-1"), ("objects", Value.records [])]

/-- Prompt store holding the artifact-keyed template. -/
def storeC7match : Store := [("tpl-2", FileContent.valid tplC7match)]

/-- Template document with one context record in its objects field, used in
the C6 examples. -/
def tplC6 : Doc :=
  [("id", Value.str "tpl-3"), ("type", Value.str "Documentation"),
   ("objects", Value.records [[("purpose", Scalar.str "x")]])]

/-- Store used by the C8 witness. -/
def storeC8 : Store :=
  [("Documentation", FileContent.valid docC1b),
   ("Questionnaire", FileContent.valid
      [("id", Value.str "Questionnaire"), ("type", Value.str "Questionnaire"),
       ("content", Value.records [[("purpose", Scalar.str "x")]])])]

/-- Store used by the C9 witness: one Documentation document present. -/
def storeC9 : Store := [("Documentation", FileContent.valid docC1a)]

/-- Additional-context record supplied by the caller in the C2 examples. -/
def recC2 : Record := [("k", Scalar.str "v")]

/-- Environment with no stored content and no templates, used in the C2
examples. -/
def envC2 : GenEnv :=
  { templates := [], stored_content := Value.null,
    render := fun _ _ => [], llm := fun _ => Except.ok Value.null }

/-- Environment with non-empty stored context but an empty template list,
used in the C4 examples. -/
def envC4 : GenEnv :=
  { templates := [], stored_content := Value.records [[("purpose", Scalar.str "x")]],
    render := fun _ _ => [], llm := fun _ => Except.ok Value.null }

/-- Environment in which every step succeeds, used in the C10 witness. -/
def envC10 : GenEnv :=
  { templates := [tplC6], stored_content := Value.records [[("purpose", Scalar.str "x")]],
    render := fun _ _ => [], llm := fun _ => Except.ok (Value.records [[("text", Scalar.str "generated")]]) }

/-- Replacing the file for `key` makes it the one found by a later lookup. -/
theorem lookupStore_storeSet_self (s : Store) (key : String) (c : FileContent) :
    lookupStore (storeSet s key c) key = some c := by
  simp [lookupStore, storeSet, List.find?]

/-- After writing `key.json`, it is the only file with that name. -/
theorem filter_storeSet (s : Store) (key : String) (c : FileContent) :
    (storeSet s key c).filter (fun p => p.1 = key) = [(key, c)] := by
  simp only [storeSet, List.filter_cons]
  have h : (s.filter (fun p => p.1 ≠ key)).filter (fun p => p.1 = key) = [] := by
    induction s with
    | nil => rfl
    | cons a t ih =>
      by_cases hk : a.1 = key
      · simp [List.filter_cons, hk, ih]
      · simp [List.filter_cons, hk, ih]
  simp [h]

/-- Membership characterization of `find_by`: a document is returned exactly
when `get_all` lists it and every criterion field matches. -/
theorem mem_find_by (s : Store) (criteria : List (String × Value)) (d : Doc) :
    d ∈ JSONRepository.find_by s criteria ↔
      d ∈ JSONRepository.get_all s ∧ ∀ kv ∈ criteria, pyGet d kv.1 = kv.2 := by
  simp [JSONRepository.find_by, List.mem_filter, List.all_eq_true]

/-- Empty criteria keep every document of `get_all`. -/
theorem find_by_nil (s : Store) :
    JSONRepository.find_by s [] = JSONRepository.get_all s := by
  simp [JSONRepository.find_by]

/-- C8: for every store state, `find_by` with empty criteria returns the same
documents as `get_all`, and `find_by criteria` returns exactly the listed
documents whose every criterion field equals the criterion value (logical
AND, with `item.get` semantics for the field read). -/
theorem c8_find_by_is_criteria_filter (s : Store)
    (criteria : List (String × Value)) (d : Doc) :
    JSONRepository.find_by s [] = JSONRepository.get_all s ∧
    (d ∈ JSONRepository.find_by s criteria ↔
      d ∈ JSONRepository.get_all s ∧ ∀ kv ∈ criteria, pyGet d kv.1 = kv.2) :=
  ⟨find_by_nil s, mem_find_by s criteria d⟩

/-- C8 witness: on a concrete two-document store, filtering by type returns
the Documentation document. -/
theorem c8_witness :
    docC1b ∈ JSONRepository.find_by storeC8 [("type", Value.str "Documentation")] :=
  (c8_find_by_is_criteria_filter storeC8 [("type", Value.str "Documentation")]
    docC1b).2.mpr ⟨by decide, by decide⟩

/-- C9: a load for an id with no stored file returns the absent indicator and
never raises; `Project.get_content` returns the absent indicator (`None`)
when no document exists for the artifact type, and otherwise the `content`
field of the stored document. -/
theorem c9_missing_key_absent_indicator (s : Store) (i : String)
    (ty : ArtifactType) (d : Doc) :
    (lookupStore s i = none → JSONRepository.load s i = none) ∧
    (lookupStore s (ArtifactType.value ty) = none →
      Project.get_content s ty = Value.null) ∧
    (JSONRepository.load s (ArtifactType.value ty) = some d →
      Project.get_content s ty = pyGet d "content") := by
  refine ⟨?_, ?_, ?_⟩
  · intro h
    simp [JSONRepository.load, h]
  · intro h
    simp [Project.get_content, JSONRepository.load, h]
  · intro h
    cases d with
    | nil => simp [Project.get_content, h, pyGet]
    | cons a t => simp [Project.get_content, h]

/-- C9 witness: a load of an unknown id on a concrete store returns `None`,
and `get_content` returns the stored content field for a present type. -/
theorem c9_witness :
    JSONRepository.load storeC9 "unknown-id" = none ∧
    Project.get_content storeC9 ArtifactType.DOCUMENTATION = pyGet docC1a "content" := by
  constructor
  · exact (c9_missing_key_absent_indicator storeC9 "unknown-id"
      ArtifactType.DOCUMENTATION docC1a).1 (by decide)
  · exact (c9_missing_key_absent_indicator storeC9 "unknown-id"
      ArtifactType.DOCUMENTATION docC1a).2.2 (by decide)

/-- C7 counterexample: the prompt store holds a template whose `type` field
is Documentation, yet `get_prompts` returns nothing, because the code
queries by the transient artifact uuid and project id rather than by type;
the spec reading of the query returns the template. -/
theorem c7_counterexample :
    Artifact.get_prompts artifactC7 storeC7 = [] ∧
    get_prompts_claimed storeC7 "Documentation" = [tplC7] ∧
    Artifact.get_prompts artifactC7 storeC7 ≠
      get_prompts_claimed storeC7 "Documentation" := by decide

/-- C7 amended: `get_prompts` queries the prompt store with the criteria
dict built from the artifact uuid and the project id, so it returns exactly
the stored records whose `artifact_id` and `project_id` fields equal those
of the artifact (zero or more). -/
theorem c7_get_prompts_by_artifact_and_project (a : Artifact) (s : Store)
    (d : Doc) :
    d ∈ Artifact.get_prompts a s ↔
      d ∈ JSONRepository.get_all s ∧
      pyGet d "artifact_id" = Value.str a.id ∧
      pyGet d "project_id" = Value.str a.project_id := by
  rw [Artifact.get_prompts, mem_find_by]
  simp

/-- C7 witness: a template tagged with the artifact uuid and project id is
returned by `get_prompts` on a concrete store. -/
theorem c7_witness :
    tplC7match ∈ Artifact.get_prompts artifactC7 storeC7match :=
  (c7_get_prompts_by_artifact_and_project artifactC7 storeC7match
    tplC7match).mpr ⟨by decide, by decide, by decide⟩

/-- C1 counterexample: on the relational backend, saving two documents with
the same id is two plain INSERTs — the table ends with two rows, not one,
and a subsequent load returns the first saved row, not the second. -/
theorem c1_counterexample :
    (SQLRepository.save
      ((SQLRepository.save [("documents", [])] "documents" docC1a true).1)
      "documents" docC1b true).1 = [("documents", [docC1a, docC1b])] ∧
    SQLRepository.load [("documents", [docC1a, docC1b])] "documents" "id"
      (Value.str "Documentation") = some docC1a ∧
    docC1a ≠ docC1b := by decide

/-- C1 amended: on the file-backed backend the property holds — after
`save(D1); save(D2)` for documents sharing id `i`, a load of `i` returns D2,
a load after the first save returns D1 (round trip), and exactly one file is
stored for that id. The relational backend appends a row per save instead. -/
theorem c1_json_overwrite_round_trip (s : Store) (d1 d2 : Doc) (i : String)
    (h1 : pyGet d1 "id" = Value.str i) (h2 : pyGet d2 "id" = Value.str i) :
    JSONRepository.save s d1 WriteOutcome.success
      = Except.ok (storeSet s i (FileContent.valid d1), some i) ∧
    JSONRepository.save (storeSet s i (FileContent.valid d1)) d2
        WriteOutcome.success
      = Except.ok (storeSet (storeSet s i (FileContent.valid d1)) i
          (FileContent.valid d2), some i) ∧
    JSONRepository.load (storeSet s i (FileContent.valid d1)) i = some d1 ∧
    JSONRepository.load (storeSet (storeSet s i (FileContent.valid d1)) i
      (FileContent.valid d2)) i = some d2 ∧
    ((storeSet (storeSet s i (FileContent.valid d1)) i
      (FileContent.valid d2)).filter (fun p => p.1 = i)).length = 1 := by
  refine ⟨?_, ?_, ?_, ?_, ?_⟩
  · simp [JSONRepository.save, h1, pyStrOf]
  · simp [JSONRepository.save, h2, pyStrOf]
  · simp [JSONRepository.load, lookupStore_storeSet_self]
  · simp [JSONRepository.load, lookupStore_storeSet_self]
  · simp [filter_storeSet]

/-- C1 witness: the concrete double save of the Documentation documents on
an empty file store loads back the second document. -/
theorem c1_witness :
    JSONRepository.load (storeSet (storeSet [] "Documentation"
      (FileContent.valid docC1a)) "Documentation" (FileContent.valid docC1b))
      "Documentation" = some docC1b :=
  (c1_json_overwrite_round_trip [] docC1a docC1b "Documentation"
    (by decide) (by decide)).2.2.2.1

/-- C3 counterexample: the file backend writes straight to the destination
file, so a write that fails after `open` truncated the target destroys the
previous document — the subsequent load returns `None`, not the pre-save
document that was there before. -/
theorem c3_counterexample :
    JSONRepository.load storeC3 "Documentation" = some docC3prev ∧
    JSONRepository.save storeC3 docC3next WriteOutcome.dumpFail
      = Except.ok ([("Documentation", FileContent.truncated)], none) ∧
    JSONRepository.load [("Documentation", FileContent.truncated)]
      "Documentation" = none :=
  ⟨rfl, rfl, rfl⟩

/-- C3 amended: the relational backend is atomic on error — a failed save
rolls back, leaving the database and every subsequent load unchanged; the
file backend is unchanged only when `open` itself fails, while a failure
during `json.dump` leaves a truncated file in place of the old document. -/
theorem c3_sql_rollback_json_truncation (db : SQLDatabase) (t : String)
    (v : Doc) (s : Store) (d : Doc) (table key : String) (x : Value)
    (h : pyGet d "id" ≠ Value.null) :
    (SQLRepository.save db t v false).1 = db ∧
    SQLRepository.load (SQLRepository.save db t v false).1 table key x
      = SQLRepository.load db table key x ∧
    JSONRepository.save s d WriteOutcome.openFail = Except.ok (s, none) ∧
    JSONRepository.save s d WriteOutcome.dumpFail
      = Except.ok (storeSet s (pyStrOf (pyGet d "id"))
          FileContent.truncated, none) := by
  have hdb : (SQLRepository.save db t v false).1 = db := by
    unfold SQLRepository.save
    cases tableOf db t <;> simp
  refine ⟨hdb, by rw [hdb], ?_, ?_⟩
  · simp [JSONRepository.save, h]
  · simp [JSONRepository.save, h]

/-- C3 witness: a concrete failed SQL save leaves the database unchanged,
and a concrete failed open leaves the file store unchanged. -/
theorem c3_witness :
    (SQLRepository.save [("documents", [])] "documents" docC3next false).1
      = [("documents", [])] ∧
    JSONRepository.save storeC3 docC3next WriteOutcome.openFail
      = Except.ok (storeC3, none) := by
  have h := c3_sql_rollback_json_truncation [("documents", [])] "documents"
    docC3next storeC3 docC3next "documents" "id" Value.null (by decide)
  exact ⟨h.1, h.2.2.1⟩

/-- C5 counterexample: a failed write does not surface a typed storage
error — `save` returns normally with `None` after printing the error, which
is exactly the silent-absent-value reporting the claim rules out. -/
theorem c5_counterexample :
    JSONRepository.save [] docC5 WriteOutcome.openFail
      = Except.ok ([], none) := rfl

/-- C5 amended: `save` does raise `ValueError` when the document has no id,
but on a write failure it only logs and returns `None` (leaving the target
either untouched or truncated); no typed storage error is propagated. -/
theorem c5_validation_error_but_silent_write_failure (s : Store) (d : Doc)
    (w : WriteOutcome) :
    (pyGet d "id" = Value.null →
      JSONRepository.save s d w
        = Except.error (PyErr.valueError "Data must include an id field")) ∧
    (pyGet d "id" ≠ Value.null → w ≠ WriteOutcome.success →
      JSONRepository.save s d w = Except.ok (s, none) ∨
      JSONRepository.save s d w
        = Except.ok (storeSet s (pyStrOf (pyGet d "id"))
            FileContent.truncated, none)) := by
  constructor
  · intro h
    simp [JSONRepository.save, h]
  · intro h hw
    cases w with
    | success => exact absurd rfl hw
    | openFail => exact Or.inl (by simp [JSONRepository.save, h])
    | dumpFail => exact Or.inr (by simp [JSONRepository.save, h])

/-- C5 witness: a concrete save without an id raises `ValueError`, and a
concrete failed dump returns `None` inside a normal return. -/
theorem c5_witness :
    JSONRepository.save [] [("type", Value.str "Documentation")]
        WriteOutcome.success
      = Except.error (PyErr.valueError "Data must include an id field") ∧
    (JSONRepository.save [] docC5 WriteOutcome.dumpFail = Except.ok ([], none) ∨
     JSONRepository.save [] docC5 WriteOutcome.dumpFail
       = Except.ok (storeSet [] (pyStrOf (pyGet docC5 "id"))
           FileContent.truncated, none)) := by
  constructor
  · exact (c5_validation_error_but_silent_write_failure []
      [("type", Value.str "Documentation")] WriteOutcome.success).1 (by decide)
  · exact (c5_validation_error_but_silent_write_failure [] docC5
      WriteOutcome.dumpFail).2 (by decide) (by decide)

/-- C2: the context-resolution code at lines 44-52 is written exactly as
claimed, but it never runs — every call of `generate_artifact` raises
`TypeError` at line 35 first. Evaluated at the failing input (no stored
content, caller-supplied additional context `recC2`), the whole run returns
the `TypeError`, not a resolved context and not the no-context `ValueError`;
the remaining conjuncts evaluate the unreachable lines 36-64 continuation at
the same input and show it implements the claimed resolution logic: the
context resolves to exactly `[recC2]`, and with neither stored nor
additional context the continuation raises the no-context error. -/
theorem c2_resolution_written_but_unreachable :
    ArtifactGenerationService.generate_artifact_run "3f2a-uuid" envC2
        (some recC2) = Except.error GenError.typeError ∧
    ArtifactGenerationService.generate_artifact_run "3f2a-uuid" envC2 none
      = Except.error GenError.typeError ∧
    resolve_context Value.null recC2 = Value.records [recC2] ∧
    ArtifactGenerationService.generate_artifact envC2 none
      = Except.error GenError.noContext :=
  ⟨rfl, rfl, rfl, rfl⟩

/-- C4 counterexample: at an input where the prompt-template query would
return the empty list (`envC4.templates = []`) and the stored context is
non-empty, the workflow does not fail with a typed no-template error: the
call crashes at line 35 with the `TypeError` from the `Artifact`
construction, before the template query at line 38 ever runs — and the code
contains no no-template error at all. -/
theorem c4_counterexample :
    ArtifactGenerationService.generate_artifact_run "3f2a-uuid" envC4 none
      = Except.error GenError.typeError := rfl

/-- C4 amended: the workflow never handles an empty template result — every
call raises `TypeError` at line 35 before the template query at line 38
runs, and the code contains no typed no-template error; in the unreachable
lines 36-64 continuation, an empty template list would crash at line 55
with the uncaught `IndexError` from `templates[0]`. -/
theorem c4_crash_precedes_template_query (uuid : String) (env : GenEnv)
    (arg : Option Record) :
    ArtifactGenerationService.generate_artifact_run uuid env arg
      = Except.error GenError.typeError ∧
    (env.templates = [] →
      pyFalsy (resolve_context env.stored_content (arg.getD [])) = false →
      ArtifactGenerationService.generate_artifact env arg
        = Except.error GenError.indexError) := by
  constructor
  · rfl
  · intro hT hC
    simp [ArtifactGenerationService.generate_artifact, hC, hT]

/-- C4 witness: the concrete empty-template run crashes with the line-35
type error, and the unreachable continuation at the same input would crash
with the index error. -/
theorem c4_witness :
    ArtifactGenerationService.generate_artifact_run "3f2a-uuid" envC4 none
      = Except.error GenError.typeError ∧
    ArtifactGenerationService.generate_artifact envC4 none
      = Except.error GenError.indexError := by
  have h := c4_crash_precedes_template_query "3f2a-uuid" envC4 none
  exact ⟨h.1, h.2 rfl (by decide)⟩

/-- C6 counterexample: `create_prompt` is not a function of a separate
contexts argument — on a template whose `objects` field holds one record it
produces one prompt, whereas the claim, applied with an empty contexts list,
demands an empty result. -/
theorem c6_counterexample :
    Artifact.create_prompt tplC6 ≠ create_prompt_claimed tplC6 [] ∧
    (Artifact.create_prompt tplC6).length = 1 := by decide

/-- C6 amended: `create_prompt` takes only the template; it draws the
context records from the template own `objects` field and pairs each with
the template dict stripped of `objects` — so N records in `objects` yield N
prompts, a missing or `None` `objects` yields the empty list, and every
produced prompt carries the stripped template. -/
theorem c6_create_prompt_from_template_objects (t : Doc)
    (ctxs : List Record) :
    (pyGet t "objects" = Value.records ctxs →
      Artifact.create_prompt t = create_prompt_claimed t ctxs) ∧
    (pyGet t "objects" = Value.null → Artifact.create_prompt t = []) ∧
    (Artifact.create_prompt t).length = (Artifact.getContextOf t).length ∧
    (∀ p ∈ Artifact.create_prompt t, p.template = delKey t "objects") := by
  refine ⟨?_, ?_, ?_, ?_⟩
  · intro h
    simp [Artifact.create_prompt, Artifact.getContextOf, h,
      pyOrEmptyRecords, create_prompt_claimed]
  · intro h
    simp [Artifact.create_prompt, Artifact.getContextOf, h, pyOrEmptyRecords]
  · simp [Artifact.create_prompt]
  · intro p hp
    simp only [Artifact.create_prompt, List.mem_map] at hp
    obtain ⟨c, _, rfl⟩ := hp
    rfl

/-- C6 witness: on the concrete template with one object record,
`create_prompt` equals the per-record pairing applied to that record list. -/
theorem c6_witness :
    Artifact.create_prompt tplC6
      = create_prompt_claimed tplC6 [[("purpose", Scalar.str "x")]] :=
  (c6_create_prompt_from_template_objects tplC6
    [[("purpose", Scalar.str "x")]]).1 (by decide)

/-- C10: whenever `generate_artifact` returns normally, the returned boolean
is `True`; every failure surfaces as a raised error, never as `False`. -/
theorem c10_normal_return_is_true (env : GenEnv) (arg : Option Record)
    (b : Bool)
    (h : ArtifactGenerationService.generate_artifact env arg = Except.ok b) :
    b = true := by
  simp only [ArtifactGenerationService.generate_artifact] at h
  split at h
  · cases h
  · split at h
    · cases h
    · split at h
      · cases h
      · cases h
        rfl

/-- C10 witness: in the all-success environment the service returns `True`. -/
theorem c10_witness :
    ArtifactGenerationService.generate_artifact envC10 none
      = Except.ok true ∧ true = true :=
  ⟨rfl, c10_normal_return_is_true envC10 none true rfl⟩
